import Mathlib

/-!
Verification of the Beijing Air Quality Predictor core logic (`main.py`):
the feature encoder (cyclic time features, time slot, weekend flag, raw
weather and lag features assembled into a fixed-order 12-element vector),
the five-bucket categorizer of the predicted PM2.5 value, the hour-based
outdoor-activity timing tip, and the model-loading / prediction error
handling around the streamlit widget flow.
-/

namespace AirBeijing

open Real

/-- The raw user inputs gathered by the sidebar widgets (`main.py` lines
31–73).  `hour` and `month` come from integer sliders, the weather values
from float number inputs, `is_weekend` from a selectbox offering the two
strings "No" and "Yes", and the two lag values from (hidden) number
inputs. -/
structure PredictionInput where
  hour : ℤ
  month : ℤ
  temp : ℝ
  pres : ℝ
  wind : ℝ
  dew : ℝ
  is_weekend : String
  pm24_lag : ℝ
  pm168_lag : ℝ

/-- `hour_sin = np.sin(2 * np.pi * hour / 24)` (`main.py` line 76). -/
noncomputable def hour_sin (hour : ℤ) : ℝ := Real.sin (2 * π * hour / 24)

/-- `hour_cos = np.cos(2 * np.pi * hour / 24)` (`main.py` line 77). -/
noncomputable def hour_cos (hour : ℤ) : ℝ := Real.cos (2 * π * hour / 24)

/-- `month_sin = np.sin(2 * np.pi * (month - 1) / 12)` (`main.py` line 78). -/
noncomputable def month_sin (month : ℤ) : ℝ := Real.sin (2 * π * (month - 1) / 12)

/-- `month_cos = np.cos(2 * np.pi * (month - 1) / 12)` (`main.py` line 79). -/
noncomputable def month_cos (month : ℤ) : ℝ := Real.cos (2 * π * (month - 1) / 12)

/-- `temp_minus_dew = temp - dew` (`main.py` line 80). -/
def temp_minus_dew (temp dew : ℝ) : ℝ := temp - dew

/-- The time-slot conditional chain (`main.py` lines 83–90):
`if 5 <= hour < 12` → 0, `elif 12 <= hour < 17` → 1,
`elif 17 <= hour < 21` → 2, `else` → 3. -/
def time_slot (hour : ℤ) : ℤ :=
  if 5 ≤ hour ∧ hour < 12 then 0
  else if 12 ≤ hour ∧ hour < 17 then 1
  else if 17 ≤ hour ∧ hour < 21 then 2
  else 3

/-- `weekend_flag = 1 if is_weekend == "Yes" else 0` (`main.py` line 93). -/
def weekend_flag (is_weekend : String) : ℤ :=
  if is_weekend = "Yes" then 1 else 0

/-- The feature row built at `main.py` lines 96–104 (`input_data` is the
2-D list `[[...]]`; we model the single inner row). -/
noncomputable def input_data (p : PredictionInput) : List ℝ :=
  [hour_sin p.hour, hour_cos p.hour,
   month_sin p.month, month_cos p.month,
   temp_minus_dew p.temp p.dew,
   (time_slot p.hour : ℝ),
   p.temp, p.pres, p.wind,
   (weekend_flag p.is_weekend : ℝ),
   p.pm24_lag, p.pm168_lag]

/-- The category conditional chain (`main.py` lines 133–157): exclusive
upper thresholds 12, 35, 55, 150 evaluated low-to-high, first match wins. -/
noncomputable def category (prediction : ℝ) : String :=
  if prediction < 12 then "Good"
  else if prediction < 35 then "Moderate"
  else if prediction < 55 then "Unhealthy for Sensitive Groups"
  else if prediction < 150 then "Unhealthy"
  else "Hazardous"

/-- The advisory string assigned in the same conditional chain
(`main.py` lines 137, 142, 147, 152, 157). -/
noncomputable def advice (prediction : ℝ) : String :=
  if prediction < 12 then
    "Air quality is excellent. Perfect for outdoor activities."
  else if prediction < 35 then
    "Air quality is acceptable. Sensitive groups should consider reducing outdoor activity."
  else if prediction < 55 then
    "Children, elderly, and people with respiratory conditions should limit outdoor activity."
  else if prediction < 150 then
    "Everyone may experience health effects. Limit outdoor activity."
  else
    "Health warning of emergency conditions. Avoid all outdoor activity."

/-- The index of the branch of the category chain that fires: branch 0 is
the `prediction < 12` case, …, branch 4 the final else (`main.py` lines
133–157).  The spec calls this the severity ordinal. -/
noncomputable def severity (prediction : ℝ) : ℕ :=
  if prediction < 12 then 0
  else if prediction < 35 then 1
  else if prediction < 55 then 2
  else if prediction < 150 then 3
  else 4

/-- The category column of the §4.2 bucket table, indexed by severity. -/
def categoryOfSeverity : ℕ → String
  | 0 => "Good"
  | 1 => "Moderate"
  | 2 => "Unhealthy for Sensitive Groups"
  | 3 => "Unhealthy"
  | _ => "Hazardous"

/-- The advisory assigned by the code for each branch of the chain,
indexed by the branch (severity) number (`main.py` lines 133–157). -/
def adviceOfSeverity : ℕ → String
  | 0 => "Air quality is excellent. Perfect for outdoor activities."
  | 1 => "Air quality is acceptable. Sensitive groups should consider reducing outdoor activity."
  | 2 => "Children, elderly, and people with respiratory conditions should limit outdoor activity."
  | 3 => "Everyone may experience health effects. Limit outdoor activity."
  | _ => "Health warning of emergency conditions. Avoid all outdoor activity."

/-- Modelled from the spec: the advisory column of the §4.2 table,
verbatim, indexed by severity — for comparison with the advisory strings
the code actually emits. -/
def spec_advisory : ℕ → String
  | 0 => "Air quality excellent; safe for outdoor activity."
  | 1 => "Acceptable; sensitive groups reduce outdoor activity."
  | 2 => "Children/elderly/respiratory-risk groups limit outdoor activity."
  | 3 => "Everyone may be affected; limit outdoor activity."
  | _ => "Emergency conditions; avoid all outdoor activity."

/-- The time-of-day tip (`main.py` lines 171–174): `if hour < 10 or
hour > 18` the favorable message, else the prefer-morning-or-evening
message.  Only `hour` occurs in the source condition and messages. -/
def tip (hour : ℤ) : String :=
  if hour < 10 ∨ 18 < hour then
    "⏰ Current hour is good (away from rush hours)"
  else
    "⏰ Consider early morning or evening (less traffic pollution)"

/-- Helper: the full case analysis of the category chain. -/
lemma category_cases (x : ℝ) :
    (x < 12 → category x = "Good") ∧
    (12 ≤ x ∧ x < 35 → category x = "Moderate") ∧
    (35 ≤ x ∧ x < 55 → category x = "Unhealthy for Sensitive Groups") ∧
    (55 ≤ x ∧ x < 150 → category x = "Unhealthy") ∧
    (150 ≤ x → category x = "Hazardous") := by
  refine ⟨fun h => ?_, fun h => ?_, fun h => ?_, fun h => ?_, fun h => ?_⟩ <;>
    (simp only [category]; split_ifs <;> first | rfl | (exfalso; push_neg at *; linarith))

/-- C3: for every hour in 0–23, `time_slot` follows the half-open
intervals [5,12)→0 (morning), [12,17)→1 (afternoon), [17,21)→2 (evening),
else→3 (night), first match winning; with the nine listed sample values. -/
theorem time_slot_intervals :
    (∀ h : ℤ, 0 ≤ h → h ≤ 23 →
      ((5 ≤ h ∧ h < 12) → time_slot h = 0) ∧
      ((12 ≤ h ∧ h < 17) → time_slot h = 1) ∧
      ((17 ≤ h ∧ h < 21) → time_slot h = 2) ∧
      ((h < 5 ∨ 21 ≤ h) → time_slot h = 3)) ∧
    time_slot 5 = 0 ∧ time_slot 11 = 0 ∧ time_slot 12 = 1 ∧
    time_slot 16 = 1 ∧ time_slot 17 = 2 ∧ time_slot 20 = 2 ∧
    time_slot 21 = 3 ∧ time_slot 4 = 3 ∧ time_slot 0 = 3 := by
  refine ⟨fun h _ _ => ?_, by decide, by decide, by decide, by decide,
    by decide, by decide, by decide, by decide, by decide⟩
  refine ⟨fun hm => ?_, fun ha => ?_, fun he => ?_, fun hn => ?_⟩ <;>
    simp only [time_slot] <;> split_ifs <;> omega

/-- Witness for C3: hour 7 lies in the morning interval and the theorem
yields `time_slot 7 = 0` there. -/
theorem time_slot_intervals_witness : time_slot 7 = 0 :=
  (time_slot_intervals.1 7 (by decide) (by decide)).1 ⟨by decide, by decide⟩

/-- C10 (implicit): `time_slot` is total over all integers, its value is
always one of 0, 1, 2, 3, and every hour outside [5,21) — including
negative hours and hours above 23 — takes the final else branch and
yields 3. -/
theorem time_slot_total :
    (∀ h : ℤ,
      (time_slot h = 0 ∨ time_slot h = 1 ∨ time_slot h = 2 ∨ time_slot h = 3) ∧
      (¬ (5 ≤ h ∧ h < 21) → time_slot h = 3)) ∧
    time_slot (-1) = 3 ∧ time_slot 24 = 3 := by
  refine ⟨fun h => ⟨?_, fun hout => ?_⟩, by decide, by decide⟩ <;>
    simp only [time_slot] <;> split_ifs <;> omega

/-- Witness for C10: hour 30 is outside [5,21), so the theorem gives
`time_slot 30 = 3`. -/
theorem time_slot_total_witness : time_slot 30 = 3 :=
  (time_slot_total.1 30).2 (by decide)

/-- C2: the categorizer is total over the real line, picking exactly one
bucket by exclusive-below thresholds evaluated low-to-high with first
match winning; every negative prediction gives "Good", and the boundary
values 12, 35, 55, 150 fall into the next bucket up. -/
theorem category_total :
    (∀ x : ℝ,
      (x < 12 → category x = "Good") ∧
      (12 ≤ x ∧ x < 35 → category x = "Moderate") ∧
      (35 ≤ x ∧ x < 55 → category x = "Unhealthy for Sensitive Groups") ∧
      (55 ≤ x ∧ x < 150 → category x = "Unhealthy") ∧
      (150 ≤ x → category x = "Hazardous") ∧
      (x < 0 → category x = "Good")) ∧
    category (12 : ℝ) = "Moderate" ∧
    category (35 : ℝ) = "Unhealthy for Sensitive Groups" ∧
    category (55 : ℝ) = "Unhealthy" ∧
    category (150 : ℝ) = "Hazardous" ∧
    category (-5 : ℝ) = "Good" := by
  refine ⟨fun x => ⟨(category_cases x).1, (category_cases x).2.1,
      (category_cases x).2.2.1, (category_cases x).2.2.2.1,
      (category_cases x).2.2.2.2, fun hx => (category_cases x).1 (by linarith)⟩,
    (category_cases 12).2.1 ⟨by norm_num, by norm_num⟩,
    (category_cases 35).2.2.1 ⟨by norm_num, by norm_num⟩,
    (category_cases 55).2.2.2.1 ⟨by norm_num, by norm_num⟩,
    (category_cases 150).2.2.2.2 (by norm_num),
    (category_cases (-5)).1 (by norm_num)⟩

/-- Witness for C2: the theorem applied at the concrete prediction 40
gives the sensitive-groups bucket. -/
theorem category_total_witness : category (40 : ℝ) = "Unhealthy for Sensitive Groups" :=
  (category_total.1 40).2.2.1 ⟨by norm_num, by norm_num⟩

/-- Counterexample for C5 as stated: at prediction 0 the matched bucket
is severity 0, but the advisory string the code emits is not the string
listed in the §4.2 table (the spec's table paraphrases the code's
wording). -/
theorem advice_ne_spec_advisory :
    severity (0 : ℝ) = 0 ∧ advice (0 : ℝ) ≠ spec_advisory 0 := by
  constructor
  · simp only [severity]
    norm_num
  · have h : advice (0 : ℝ) = "Air quality is excellent. Perfect for outdoor activities." := by
      simp only [advice]
      norm_num
    rw [h]
    decide

/-- C5 (amended): for every prediction, the severity ordinal is in 0–4
and equals the index of the matched bucket, the category string is the
§4.2 category of that bucket, and the advisory is the fixed per-bucket
string the code assigns to that bucket (a paraphrase, not a verbatim
copy, of the §4.2 advisory column). -/
theorem categorizer_record (x : ℝ) :
    severity x ≤ 4 ∧
    category x = categoryOfSeverity (severity x) ∧
    advice x = adviceOfSeverity (severity x) := by
  refine ⟨?_, ?_, ?_⟩ <;>
    (simp only [severity, category, advice]; split_ifs <;> simp [categoryOfSeverity, adviceOfSeverity])

/-- C6: the timing tip depends upon hour alone: hours before 10 or after 18
get the favorable message, hours 10–18 the prefer-morning-or-evening
message; with the four listed sample hours. -/
theorem tip_by_hour :
    (∀ h : ℤ, 0 ≤ h → h ≤ 23 →
      ((h < 10 ∨ 18 < h) →
        tip h = "⏰ Current hour is good (away from rush hours)") ∧
      (10 ≤ h → h ≤ 18 →
        tip h = "⏰ Consider early morning or evening (less traffic pollution)")) ∧
    tip 9 = "⏰ Current hour is good (away from rush hours)" ∧
    tip 10 = "⏰ Consider early morning or evening (less traffic pollution)" ∧
    tip 18 = "⏰ Consider early morning or evening (less traffic pollution)" ∧
    tip 19 = "⏰ Current hour is good (away from rush hours)" := by
  refine ⟨fun h _ _ => ⟨fun hc => ?_, fun h10 h18 => ?_⟩,
    by decide, by decide, by decide, by decide⟩ <;>
    (simp only [tip]; split_ifs <;> first | rfl | omega)

/-- Witness for C6: the theorem applied at hour 20 gives the favorable
message. -/
theorem tip_by_hour_witness :
    tip 20 = "⏰ Current hour is good (away from rush hours)" :=
  (tip_by_hour.1 20 (by decide) (by decide)).1 (Or.inr (by decide))

/-- C1: for every input within the documented ranges, the encoder emits
exactly 12 numbers in the fixed order hourSin, hourCos, monthSin,
monthCos, temp − dew, timeSlot, temp, pres, wind, weekend flag (1 iff
weekend), 24h lag, 168h lag. -/
theorem input_data_order (p : PredictionInput)
    (hh0 : 0 ≤ p.hour) (hh1 : p.hour ≤ 23)
    (hm0 : 1 ≤ p.month) (hm1 : p.month ≤ 12)
    (ht0 : -20 ≤ p.temp) (ht1 : p.temp ≤ 45)
    (hp0 : 980 ≤ p.pres) (hp1 : p.pres ≤ 1040)
    (hw0 : 0 ≤ p.wind) (hw1 : p.wind ≤ 100)
    (hd0 : -20 ≤ p.dew) (hd1 : p.dew ≤ 30)
    (hwk : p.is_weekend = "Yes" ∨ p.is_weekend = "No")
    (hl0 : 0 ≤ p.pm24_lag) (hl1 : p.pm24_lag ≤ 500)
    (hq0 : 0 ≤ p.pm168_lag) (hq1 : p.pm168_lag ≤ 500) :
    (input_data p).length = 12 ∧
    input_data p =
      [Real.sin (2 * π * p.hour / 24), Real.cos (2 * π * p.hour / 24),
       Real.sin (2 * π * (p.month - 1) / 12), Real.cos (2 * π * (p.month - 1) / 12),
       p.temp - p.dew,
       (time_slot p.hour : ℝ),
       p.temp, p.pres, p.wind,
       (if p.is_weekend = "Yes" then (1 : ℝ) else 0),
       p.pm24_lag, p.pm168_lag] := by
  refine ⟨rfl, ?_⟩
  simp only [input_data, hour_sin, hour_cos, month_sin, month_cos,
    temp_minus_dew, weekend_flag]
  split_ifs <;> simp

/-- Witness for C1: the default sidebar values (hour 12, June, 20 °C,
1013 hPa, wind 5, dew 10, no weekend, lags 80 and 75). -/
theorem input_data_order_witness :
    (input_data ⟨12, 6, 20, 1013, 5, 10, "No", 80, 75⟩).length = 12 :=
  (input_data_order ⟨12, 6, 20, 1013, 5, 10, "No", 80, 75⟩
    (by norm_num) (by norm_num) (by norm_num) (by norm_num)
    (by norm_num) (by norm_num) (by norm_num) (by norm_num)
    (by norm_num) (by norm_num) (by norm_num) (by norm_num)
    (Or.inr rfl)
    (by norm_num) (by norm_num) (by norm_num) (by norm_num)).1

/-- C4: the first four encoder outputs are the cyclic transforms of hour
and of the zero-based month (the `(month − 1)` offset), and each sin/cos
pair lies upon the unit circle. -/
theorem cyclic_features (h m : ℤ)
    (hh0 : 0 ≤ h) (hh1 : h ≤ 23) (hm0 : 1 ≤ m) (hm1 : m ≤ 12) :
    hour_sin h = Real.sin (2 * π * h / 24) ∧
    hour_cos h = Real.cos (2 * π * h / 24) ∧
    month_sin m = Real.sin (2 * π * (m - 1) / 12) ∧
    month_cos m = Real.cos (2 * π * (m - 1) / 12) ∧
    hour_sin h ^ 2 + hour_cos h ^ 2 = 1 ∧
    month_sin m ^ 2 + month_cos m ^ 2 = 1 ∧
    ∀ p : PredictionInput, p.hour = h → p.month = m →
      (input_data p).take 4 = [hour_sin h, hour_cos h, month_sin m, month_cos m] := by
  refine ⟨rfl, rfl, rfl, rfl, ?_, ?_, ?_⟩
  · exact Real.sin_sq_add_cos_sq _
  · exact Real.sin_sq_add_cos_sq _
  · intro p hp hm'
    simp [input_data, hp, hm']

/-- Witness for C4: at hour 0, month 1 the hour pair lies upon the unit
circle. -/
theorem cyclic_features_witness : hour_sin 0 ^ 2 + hour_cos 0 ^ 2 = 1 :=
  (cyclic_features 0 1 (by norm_num) (by norm_num) (by norm_num)
    (by norm_num)).2.2.2.2.1

/-- C9: the encoder is a pure function of the nine input fields — any two
inputs that agree in every field produce identical 12-element vectors. -/
theorem input_data_deterministic (p q : PredictionInput)
    (e1 : p.hour = q.hour) (e2 : p.month = q.month) (e3 : p.temp = q.temp)
    (e4 : p.pres = q.pres) (e5 : p.wind = q.wind) (e6 : p.dew = q.dew)
    (e7 : p.is_weekend = q.is_weekend) (e8 : p.pm24_lag = q.pm24_lag)
    (e9 : p.pm168_lag = q.pm168_lag) :
    input_data p = input_data q := by
  simp only [input_data, hour_sin, hour_cos, month_sin, month_cos,
    temp_minus_dew, weekend_flag, e1, e2, e3, e4, e5, e6, e7, e8, e9]

/-- Witness for C9: encoding the default input twice yields the same
vector. -/
theorem input_data_deterministic_witness :
    input_data ⟨12, 6, 20, 1013, 5, 10, "No", 80, 75⟩ =
      input_data ⟨12, 6, 20, 1013, 5, 10, "No", 80, 75⟩ :=
  input_data_deterministic _ _ rfl rfl rfl rfl rfl rfl rfl rfl rfl

/-- The predictor loaded from the artifact: called with the feature row, it
either returns the scalar prediction (`model.predict(input_data)[0]`,
`main.py` line 124) or raises, which we model as `Except.error`. -/
def Model : Type := List ℝ → Except String ℝ

/-- The message shown by `load_model` when `joblib.load` raises
(`main.py` line 22). -/
def loadFailMsgs : List String :=
  ["Model file 'best_tuned_model.pkl' not found. Run training first."]

/-- The message shown when the button is clicked while no model is loaded
(`main.py` line 180). -/
def notLoadedMsg : String :=
  "Model not loaded. Check if 'best_tuned_model.pkl' exists."

/-- What one script run displays in the result column: nothing (button
not clicked), an error banner, or the prediction with its category,
advisory and timing tip (`main.py` lines 121–180). -/
inductive Outcome where
  | noDisplay : Outcome
  | errorMsg (msg : String) : Outcome
  | showPrediction (value : ℝ)
      (categoryShown adviceShown tipShown : String) : Outcome

/-- `load_model` (`main.py` lines 17–23): try to read the artifact;
upon success return the model, upon any exception show the fixed error
message and return `None`.  The artifact read is modelled as an
`Except`. -/
def load_model (read_artifact : Except String Model) :
    Option Model × List String :=
  match read_artifact with
  | .ok m => (some m, [])
  | .error _ => (none, loadFailMsgs)

/-- The predict-button handler (`main.py` lines 121–180):
`if predict_button and model is not None:` run the predictor inside
`try`, displaying the result or, upon exception `e`, the banner
`f"Prediction error: {e}"`; `elif predict_button:` show the
model-not-loaded banner.  The second component counts how many times the
predictor is invoked during the run (the source contains exactly one
`model.predict` call, inside the guarded `try`). -/
noncomputable def handle_predict (predict_button : Bool)
    (model : Option Model) (p : PredictionInput) : Outcome × ℕ :=
  match predict_button, model with
  | true, some m =>
      match m (input_data p) with
      | .ok prediction =>
          (.showPrediction prediction (category prediction)
            (advice prediction) (tip p.hour), 1)
      | .error e => (.errorMsg ("Prediction error: " ++ e), 1)
  | true, none => (.errorMsg notLoadedMsg, 0)
  | false, _ => (.noDisplay, 0)

/-- Process-level state: the `@st.cache_resource` cache holding the
result of the first `load_model()` call, plus a count of how many times
the artifact load has actually been attempted. -/
structure Session where
  cache : Option (Option Model × List String)
  load_attempts : ℕ

/-- Fresh process: nothing cached, no load attempted yet. -/
def init_session : Session := ⟨none, 0⟩

/-- `@st.cache_resource` semantics (`main.py` line 16): the first call
runs `load_model` and caches its value; later calls return the cached
value without re-running the loader. -/
def cached_load_model (read_artifact : Except String Model) (s : Session) :
    (Option Model × List String) × Session :=
  match s.cache with
  | some v => (v, s)
  | none =>
      (load_model read_artifact,
       ⟨some (load_model read_artifact), s.load_attempts + 1⟩)

/-- One streamlit script rerun: `model = load_model()` (served from the
cache after the first run), then the predict-button handler. -/
noncomputable def rerun (read_artifact : Except String Model)
    (predict_button : Bool) (p : PredictionInput) (s : Session) :
    (Outcome × ℕ) × Session :=
  match cached_load_model read_artifact s with
  | (lm, s1) => (handle_predict predict_button lm.1 p, s1)

/-- A process lifetime: the script reruns once per user interaction,
threading the cache state. -/
noncomputable def run_session (read_artifact : Except String Model) :
    List (Bool × PredictionInput) → Session → List (Outcome × ℕ) × Session
  | [], s => ([], s)
  | r :: rs, s =>
      let step := rerun read_artifact r.1 r.2 s
      let rest := run_session read_artifact rs step.2
      (step.1 :: rest.1, rest.2)

/-- Helper: with an unreadable artifact, every rerun from a state whose
cache is empty or holds the failed load shows at most the
model-not-loaded banner, never calls the predictor, and the total number
of load attempts grows by at most one (zero once the cache is filled). -/
lemma run_session_no_model (e : String)
    (reqs : List (Bool × PredictionInput)) :
    ∀ s : Session,
      s.cache = none ∨ s.cache = some (none, loadFailMsgs) →
      (∀ oc ∈ (run_session (Except.error e) reqs s).1,
          oc.2 = 0 ∧
          (oc.1 = Outcome.noDisplay ∨ oc.1 = Outcome.errorMsg notLoadedMsg)) ∧
      (run_session (Except.error e) reqs s).2.load_attempts ≤
        s.load_attempts + (if s.cache.isNone then 1 else 0) := by
  induction reqs with
  | nil =>
      intro s _
      refine ⟨fun oc hon => ?_, ?_⟩
      · simp [run_session] at hon
      · simp only [run_session]
        split <;> omega
  | cons r rs ih =>
      intro s hs
      have hstep : ∀ (s1 : Session),
          s1.cache = some (none, loadFailMsgs) →
          rerun (Except.error e) r.1 r.2 s =
            ((handle_predict r.1 none r.2), s1) →
          (∀ oc ∈ (run_session (Except.error e) (r :: rs) s).1,
              oc.2 = 0 ∧
              (oc.1 = Outcome.noDisplay ∨
                oc.1 = Outcome.errorMsg notLoadedMsg)) ∧
          (run_session (Except.error e) (r :: rs) s).2.load_attempts ≤
            s1.load_attempts := by
        intro s1 hc1 hr
        obtain ⟨hrest, hatt⟩ := ih s1 (Or.inr hc1)
        constructor
        · intro oc hon
          simp only [run_session, hr, List.mem_cons] at hon
          rcases hon with hon | hon
          · subst hon
            cases hb : r.1 <;> simp [handle_predict, hb]
          · exact hrest oc hon
        · simp only [run_session, hr]
          simpa [hc1] using hatt
      rcases hs with hnone | hsome
      · have hr : rerun (Except.error e) r.1 r.2 s =
            ((handle_predict r.1 none r.2),
              ⟨some (none, loadFailMsgs), s.load_attempts + 1⟩) := by
          simp [rerun, cached_load_model, hnone, load_model]
        obtain ⟨h1, h2⟩ := hstep ⟨some (none, loadFailMsgs), s.load_attempts + 1⟩ rfl hr
        exact ⟨h1, by simpa [hnone] using h2⟩
      · have hr : rerun (Except.error e) r.1 r.2 s =
            ((handle_predict r.1 none r.2), s) := by
          simp [rerun, cached_load_model, hsome]
        obtain ⟨h1, h2⟩ := hstep s hsome hr
        exact ⟨h1, by simpa [hsome] using h2⟩

/-- C8: if the artifact is absent or unreadable, `load_model` returns the
`none` sentinel and the user-visible message; clicking predict while no
model is loaded shows an error banner and never calls the predictor; and
over a whole process lifetime every interaction shows at most the
not-loaded banner, the predictor is never invoked, and the load is
attempted at most once, not once per request. -/
theorem model_load_failure (e : String)
    (reqs : List (Bool × PredictionInput)) (p : PredictionInput) :
    load_model (Except.error e) = (none, loadFailMsgs) ∧
    handle_predict true none p = (Outcome.errorMsg notLoadedMsg, 0) ∧
    (∀ oc ∈ (run_session (Except.error e) reqs init_session).1,
        oc.2 = 0 ∧
        (oc.1 = Outcome.noDisplay ∨ oc.1 = Outcome.errorMsg notLoadedMsg)) ∧
    (run_session (Except.error e) reqs init_session).2.load_attempts ≤ 1 := by
  obtain ⟨h1, h2⟩ :=
    run_session_no_model e reqs init_session (Or.inl rfl)
  exact ⟨rfl, rfl, h1, by simpa [init_session] using h2⟩

/-- Witness for C8: with a missing artifact and a single button click at
the default input, the one outcome of the session is the not-loaded
banner with zero predictor calls. -/
theorem model_load_failure_witness :
    (Outcome.errorMsg notLoadedMsg, 0).2 = 0 ∧
    ((Outcome.errorMsg notLoadedMsg, (0 : ℕ)).1 = Outcome.noDisplay ∨
      (Outcome.errorMsg notLoadedMsg, (0 : ℕ)).1 =
        Outcome.errorMsg notLoadedMsg) :=
  (model_load_failure "missing" [(true, ⟨12, 6, 20, 1013, 5, 10, "No", 80, 75⟩)]
      ⟨12, 6, 20, 1013, 5, 10, "No", 80, 75⟩).2.2.1
    (Outcome.errorMsg notLoadedMsg, 0)
    (by simp [run_session, rerun, cached_load_model, load_model,
      handle_predict, init_session])

/-- C7: if the predictor raises, the exception is caught and surfaced as
the `Prediction error:` banner, the rerun still produces a defined
outcome (no crash), the session state is left exactly as it was, and the
predictor was invoked exactly once for the request (no automatic
retry). -/
theorem prediction_error_handled (m : Model) (p : PredictionInput)
    (e : String) (ra : Except String Model) (s : Session)
    (msgs : List String)
    (hm : m (input_data p) = Except.error e)
    (hc : s.cache = some (some m, msgs)) :
    rerun ra true p s =
      ((Outcome.errorMsg ("Prediction error: " ++ e), 1), s) := by
  simp [rerun, cached_load_model, hc, handle_predict, hm]

/-- Witness for C7: a predictor that always raises "boom", already cached
in the session; the rerun surfaces the banner, counts one predictor call
and leaves the session untouched. -/
theorem prediction_error_handled_witness :
    rerun (Except.error "no file") true ⟨12, 6, 20, 1013, 5, 10, "No", 80, 75⟩
        ⟨some (some (fun _ => Except.error "boom"), []), 1⟩ =
      ((Outcome.errorMsg ("Prediction error: " ++ "boom"), 1),
        ⟨some (some (fun _ => Except.error "boom"), []), 1⟩) :=
  prediction_error_handled (fun _ => Except.error "boom")
    ⟨12, 6, 20, 1013, 5, 10, "No", 80, 75⟩ "boom" (Except.error "no file")
    ⟨some (some (fun _ => Except.error "boom"), []), 1⟩ [] rfl rfl

end AirBeijing
